import Mathlib

/-!
Verification of the event admission pipeline of a relay server
(event-message-handler and user-repository).

The TypeScript source is embedded shallowly: pure functions become Lean
functions; effectful code is modelled as explicit state or oracle passing
together with an effect trace, and a thrown exception becomes the error
side of an Except value that carries the effects performed before the
throw.  Results of external calls (database rows, cache lookups, webhook
responses, the sliding-window limiter, the crypto checks) are supplied as
oracle inputs, since those collaborators live outside the embedded code.
-/

namespace Nostream

/-- An event submitted by a client. Hex identifiers are kept as strings of
hex characters; `created_at` is in unix seconds. -/
structure Event where
  id : String
  pubkey : String
  created_at : Int
  kind : Nat
  tags : List (List String)
  content : String
  sig : String
  deriving DecidableEq

/-- A kind matcher from the settings: either an exact kind or an inclusive
range, mirroring `EventKinds | [EventKinds, EventKinds]`. -/
inductive KindFilter where
  | exact : Nat → KindFilter
  | range : Nat → Nat → KindFilter
  deriving DecidableEq

/-- Modelled from the spec: `isEventKindOrRangeMatch` (src/utils/event is
not under src/). A kind matcher accepts either an exact integer by
equality or a `[lo, hi]` pair as an inclusive range. -/
def isEventKindOrRangeMatch (e : Event) : KindFilter → Bool
  | .exact k => e.kind == k
  | .range lo hi => decide (lo ≤ e.kind) && decide (e.kind ≤ hi)

/-- Modelled from the spec: hex digit value used by the proof-of-work
computation over hex identifiers. -/
def hexDigitToNat (c : Char) : Nat :=
  if '0' ≤ c ∧ c ≤ '9' then c.toNat - '0'.toNat
  else if 'a' ≤ c ∧ c ≤ 'f' then c.toNat - 'a'.toNat + 10
  else if 'A' ≤ c ∧ c ≤ 'F' then c.toNat - 'A'.toNat + 10
  else 0

/-- Leading zero bits of a single non-zero hex nibble. -/
def nibbleLeadingZeroBits (d : Nat) : Nat :=
  if d = 0 then 4 else if d < 2 then 3 else if d < 4 then 2 else if d < 8 then 1 else 0

/-- Leading zero bits of a hex string read as a big-endian integer. -/
def hexLeadingZeroBits : List Char → Nat
  | [] => 0
  | c :: rest =>
    if hexDigitToNat c = 0 then 4 + hexLeadingZeroBits rest
    else nibbleLeadingZeroBits (hexDigitToNat c)

/-- Modelled from the spec: `getEventProofOfWork` (src/utils/event is not
under src/): leading zero bits of the event id hex string interpreted as a
big-endian integer. -/
def getEventProofOfWork (id : String) : Nat := hexLeadingZeroBits id.toList

/-- Modelled from the spec: `getPubkeyProofOfWork` (src/utils/event is not
under src/). -/
def getPubkeyProofOfWork (pubkey : String) : Nat := hexLeadingZeroBits pubkey.toList

/-- The unix-seconds value of one tag when it is a well-formed expiration
tag, none otherwise. -/
def expirationTagValue (t : List String) : Option Nat :=
  if t.head? = some "expiration" then (t.get? 1).bind String.toNat? else none

/-- Modelled from the spec: `getEventExpiration` (src/utils/event is not
under src/): the value of the first well-formed expiration tag. -/
def getEventExpiration (e : Event) : Option Nat :=
  e.tags.findSome? expirationTagValue

/-- Modelled from the spec: `isExpiredEvent` (src/utils/event is not under
src/): the event carries a well-formed expiration tag whose value is at
most the current unix time. -/
def isExpiredEvent (now : Int) (e : Event) : Bool :=
  match getEventExpiration e with
  | some v => decide ((v : Int) ≤ now)
  | none => false

/-- `addExpirationMetadata`: attaches the computed expiration, if any, as
pipeline-local metadata next to the unchanged event. -/
def addExpirationMetadata (e : Event) : Event × Option Nat :=
  (e, getEventExpiration e)

/-- One record of `limits.event.content`. -/
structure ContentLimits where
  kinds : Option (List KindFilter) := none
  maxLength : Option Nat := none
  deriving DecidableEq

/-- `limits.event.content` is either one record or a sequence of records. -/
inductive ContentSetting where
  | single : ContentLimits → ContentSetting
  | seq : List ContentLimits → ContentSetting
  deriving DecidableEq

structure CreatedAtLimits where
  maxPositiveDelta : Option Int := none
  maxNegativeDelta : Option Int := none
  deriving DecidableEq

structure EventIdLimits where
  minLeadingZeroBits : Option Nat := none
  deriving DecidableEq

structure PubkeyLimits where
  minBalance : Option Int := none
  minLeadingZeroBits : Option Nat := none
  whitelist : Option (List String) := none
  blacklist : Option (List String) := none
  deriving DecidableEq

structure KindLimits where
  whitelist : Option (List KindFilter) := none
  blacklist : Option (List KindFilter) := none
  deriving DecidableEq

structure EventWhitelists where
  pubkeys : Option (List String) := none
  ipAddresses : Option (List String) := none
  deriving DecidableEq

/-- One record of `limits.event.rateLimits`. -/
structure RateLimitRecord where
  period : Nat
  rate : Nat
  kinds : Option (List KindFilter) := none
  deriving DecidableEq

structure EventLimits where
  eventId : Option EventIdLimits := none
  pubkey : Option PubkeyLimits := none
  kind : Option KindLimits := none
  createdAt : Option CreatedAtLimits := none
  content : Option ContentSetting := none
  rateLimits : Option (List RateLimitRecord) := none
  whitelists : Option EventWhitelists := none
  deriving DecidableEq

structure Limits where
  event : Option EventLimits := none
  deriving DecidableEq

structure FeeScheduleWhitelists where
  pubkeys : Option (List String) := none
  deriving DecidableEq

structure FeeSchedule where
  enabled : Bool
  amount : Int
  whitelists : Option FeeScheduleWhitelists := none
  deriving DecidableEq

structure FeeSchedules where
  admission : List FeeSchedule := []
  publication : List FeeSchedule := []
  topUp : List FeeSchedule := []
  deriving DecidableEq

structure Payments where
  enabled : Bool
  feeSchedules : FeeSchedules := {}
  deriving DecidableEq

structure WebhookEndpoints where
  baseURL : String := ""
  pubkeyCheck : Option String := none
  eventCheck : Option String := none
  eventCallback : Option String := none
  topUps : Option String := none
  deriving DecidableEq

structure Webhooks where
  pubkeyChecks : Bool := false
  topUps : Bool := false
  eventChecks : Bool := false
  eventCallbacks : Bool := false
  endpoints : WebhookEndpoints := {}
  deriving DecidableEq

structure Settings where
  payments : Option Payments := none
  limits : Option Limits := none
  webhooks : Option Webhooks := none
  deriving DecidableEq

/-- Truthiness of an optional string in the javascript sense: present and
non-empty. -/
def truthyOptStr : Option String → Bool
  | none => false
  | some s => s != ""

/-- Modelled from the spec: `createCommandResult` (src/utils/messages is
not under src/): the acknowledgement frame of shape
`[kind, eventId, accepted, reason]` with kind label `OK`. -/
structure CommandResult where
  label : String
  eventId : String
  accepted : Bool
  reason : String
  deriving DecidableEq

def createCommandResult (eventId : String) (accepted : Bool) (reason : String) : CommandResult :=
  { label := "OK", eventId := eventId, accepted := accepted, reason := reason }

/-- User record as seen by the pipeline and the repository. -/
structure User where
  pubkey : String
  isAdmitted : Bool
  balance : Int
  createdAt : Nat
  updatedAt : Nat
  tosAcceptedAt : Option Nat := none
  deriving DecidableEq

/-- Side effects performed by the pipeline, in order. -/
inductive Effect where
  | emit (r : CommandResult)
  | rateLimiterHit (key : String) (weight period rate : Nat)
  | findUser (pubkey : String)
  | topUp (pubkey : String)
  | webhookEventCheck
  | updateBalance (pubkey : String) (amount : Int) (direction : String)
  | strategyExecute
  | webhookEventCallback
  deriving DecidableEq

/-- Whether an effect is a command-result emission. -/
def Effect.isEmit : Effect → Bool
  | .emit _ => true
  | _ => false

structure WebhookResponse where
  success : Bool
  reason : String
  deriving DecidableEq

/-- Oracle inputs to one run of the pipeline: the results that the
external collaborators (crypto checks, limiter, repository, webhooks,
strategy) would return. `eventCheckResponse = none` models a transport
failure of the event-check webhook (the call throws). -/
structure Env where
  now : Int
  idValid : Bool
  sigValid : Bool
  clientAddress : String
  hitResult : String → Nat → Nat → Nat → Bool
  findUserResult : Option User
  topUpResult : Bool
  eventCheckResponse : Option WebhookResponse
  strategyExecutable : Bool
  strategyThrows : Bool

/-- `isEventValid`: id check, then signature check. -/
def isEventValid (env : Env) : Option String :=
  if !env.idValid then some "invalid: event id does not match"
  else if !env.sigValid then some "invalid: event signature verification failed"
  else none

/-- First-violation-wins combination of two ordered checks. -/
def firstSome (a b : Option String) : Option String :=
  match a with
  | some r => some r
  | none => b

/-- One record of the content-length check: fires when a positive
`maxLength` is exceeded and the record applies to the kind of the event. -/
def contentRecordCheck (e : Event) (c : ContentLimits) : Option String :=
  match c.maxLength with
  | none => none
  | some m =>
    if decide (0 < m) && decide (e.content.length > m)
       && (match c.kinds with
           | some ks => ks.any (isEventKindOrRangeMatch e)
           | none => true) then
      some ("rejected: content is longer than " ++ toString m ++ " bytes")
    else none

/-- The loop over a sequence of content records, returning the first
violation. -/
def contentSeqCheck (e : Event) : List ContentLimits → Option String
  | [] => none
  | c :: rest =>
    match contentRecordCheck e c with
    | some r => some r
    | none => contentSeqCheck e rest

/-- Kind denylist stage of `canAcceptEvent` (the last check). -/
def caeKindBlacklistStage (e : Event) (limits : EventLimits) : Option String :=
  match limits.kind.bind KindLimits.blacklist with
  | some bl =>
    if decide (0 < bl.length) && bl.any (isEventKindOrRangeMatch e) then
      some ("blocked: event kind " ++ toString e.kind ++ " not allowed")
    else none
  | none => none

/-- Kind allowlist stage of `canAcceptEvent`. -/
def caeKindWhitelistStage (e : Event) (limits : EventLimits) : Option String :=
  match limits.kind.bind KindLimits.whitelist with
  | some wl =>
    if decide (0 < wl.length) && !wl.any (isEventKindOrRangeMatch e) then
      some ("blocked: event kind " ++ toString e.kind ++ " not allowed")
    else caeKindBlacklistStage e limits
  | none => caeKindBlacklistStage e limits

/-- Pubkey denylist stage of `canAcceptEvent`. -/
def caePubkeyBlacklistStage (e : Event) (limits : EventLimits) : Option String :=
  match limits.pubkey.bind PubkeyLimits.blacklist with
  | some bl =>
    if decide (0 < bl.length) && bl.any (fun p => e.pubkey.startsWith p) then
      some "blocked: pubkey not allowed"
    else caeKindWhitelistStage e limits
  | none => caeKindWhitelistStage e limits

/-- Pubkey allowlist stage of `canAcceptEvent`. -/
def caePubkeyWhitelistStage (e : Event) (limits : EventLimits) : Option String :=
  match limits.pubkey.bind PubkeyLimits.whitelist with
  | some wl =>
    if decide (0 < wl.length) && !wl.any (fun p => e.pubkey.startsWith p) then
      some "blocked: pubkey not allowed"
    else caePubkeyBlacklistStage e limits
  | none => caePubkeyBlacklistStage e limits

/-- Pubkey proof-of-work stage of `canAcceptEvent`. -/
def caePubkeyPowStage (e : Event) (limits : EventLimits) : Option String :=
  match limits.pubkey.bind PubkeyLimits.minLeadingZeroBits with
  | some t =>
    if decide (0 < t) then
      if decide (getPubkeyProofOfWork e.pubkey < t) then
        some ("pow: pubkey difficulty " ++ toString (getPubkeyProofOfWork e.pubkey)
              ++ "<" ++ toString t)
      else caePubkeyWhitelistStage e limits
    else caePubkeyWhitelistStage e limits
  | none => caePubkeyWhitelistStage e limits

/-- Event-id proof-of-work stage of `canAcceptEvent`. -/
def caeEventIdPowStage (e : Event) (limits : EventLimits) : Option String :=
  match limits.eventId.bind EventIdLimits.minLeadingZeroBits with
  | some t =>
    if decide (0 < t) then
      if decide (getEventProofOfWork e.id < t) then
        some ("pow: difficulty " ++ toString (getEventProofOfWork e.id)
              ++ "<" ++ toString t)
      else caePubkeyPowStage e limits
    else caePubkeyPowStage e limits
  | none => caePubkeyPowStage e limits

/-- Past-skew stage of `canAcceptEvent`. -/
def caePastStage (e : Event) (limits : EventLimits) (now : Int) : Option String :=
  match limits.createdAt.bind CreatedAtLimits.maxNegativeDelta with
  | some d =>
    if decide (0 < d) && decide (e.created_at < now - d) then
      some ("rejected: created_at is more than " ++ toString d ++ " seconds in the past")
    else caeEventIdPowStage e limits
  | none => caeEventIdPowStage e limits

/-- Future-skew stage of `canAcceptEvent`. -/
def caeFutureStage (e : Event) (limits : EventLimits) (now : Int) : Option String :=
  match limits.createdAt.bind CreatedAtLimits.maxPositiveDelta with
  | some d =>
    if decide (0 < d) && decide (e.created_at > now + d) then
      some ("rejected: created_at is more than " ++ toString d ++ " seconds in the future")
    else caePastStage e limits now
  | none => caePastStage e limits now

/-- `canAcceptEvent`: the policy evaluator, a pure function of the event,
the settings snapshot and the current unix time, returning the reason of
the first check that fires, none on acceptance. -/
def canAcceptEvent (e : Event) (s : Settings) (now : Int) : Option String :=
  let limits := (s.limits.bind Limits.event).getD {}
  match (match limits.content with
         | some (.seq cs) => contentSeqCheck e cs
         | some (.single c) => contentRecordCheck e c
         | none => none) with
  | some r => some r
  | none => caeFutureStage e limits now

/-- Content check of the specification table, first violation over all
records. -/
def checkContent (e : Event) (limits : EventLimits) : Option String :=
  match limits.content with
  | some (.seq cs) => cs.findSome? (contentRecordCheck e)
  | some (.single c) => contentRecordCheck e c
  | none => none

def checkFutureSkew (e : Event) (limits : EventLimits) (now : Int) : Option String :=
  match limits.createdAt.bind CreatedAtLimits.maxPositiveDelta with
  | some d =>
    if decide (0 < d) && decide (e.created_at > now + d) then
      some ("rejected: created_at is more than " ++ toString d ++ " seconds in the future")
    else none
  | none => none

def checkPastSkew (e : Event) (limits : EventLimits) (now : Int) : Option String :=
  match limits.createdAt.bind CreatedAtLimits.maxNegativeDelta with
  | some d =>
    if decide (0 < d) && decide (e.created_at < now - d) then
      some ("rejected: created_at is more than " ++ toString d ++ " seconds in the past")
    else none
  | none => none

def checkEventIdPow (e : Event) (limits : EventLimits) : Option String :=
  match limits.eventId.bind EventIdLimits.minLeadingZeroBits with
  | some t =>
    if decide (0 < t) && decide (getEventProofOfWork e.id < t) then
      some ("pow: difficulty " ++ toString (getEventProofOfWork e.id) ++ "<" ++ toString t)
    else none
  | none => none

def checkPubkeyPow (e : Event) (limits : EventLimits) : Option String :=
  match limits.pubkey.bind PubkeyLimits.minLeadingZeroBits with
  | some t =>
    if decide (0 < t) && decide (getPubkeyProofOfWork e.pubkey < t) then
      some ("pow: pubkey difficulty " ++ toString (getPubkeyProofOfWork e.pubkey)
            ++ "<" ++ toString t)
    else none
  | none => none

def checkPubkeyWhitelist (e : Event) (limits : EventLimits) : Option String :=
  match limits.pubkey.bind PubkeyLimits.whitelist with
  | some wl =>
    if decide (0 < wl.length) && !wl.any (fun p => e.pubkey.startsWith p) then
      some "blocked: pubkey not allowed"
    else none
  | none => none

def checkPubkeyBlacklist (e : Event) (limits : EventLimits) : Option String :=
  match limits.pubkey.bind PubkeyLimits.blacklist with
  | some bl =>
    if decide (0 < bl.length) && bl.any (fun p => e.pubkey.startsWith p) then
      some "blocked: pubkey not allowed"
    else none
  | none => none

def checkKindWhitelist (e : Event) (limits : EventLimits) : Option String :=
  match limits.kind.bind KindLimits.whitelist with
  | some wl =>
    if decide (0 < wl.length) && !wl.any (isEventKindOrRangeMatch e) then
      some ("blocked: event kind " ++ toString e.kind ++ " not allowed")
    else none
  | none => none

def checkKindBlacklist (e : Event) (limits : EventLimits) : Option String :=
  match limits.kind.bind KindLimits.blacklist with
  | some bl =>
    if decide (0 < bl.length) && bl.any (isEventKindOrRangeMatch e) then
      some ("blocked: event kind " ++ toString e.kind ++ " not allowed")
    else none
  | none => none

/-- The policy evaluator as the specification states it: the nine checks
applied in order, first violation wins. -/
def evaluate (e : Event) (s : Settings) (now : Int) : Option String :=
  let limits := (s.limits.bind Limits.event).getD {}
  firstSome (checkContent e limits)
    (firstSome (checkFutureSkew e limits now)
      (firstSome (checkPastSkew e limits now)
        (firstSome (checkEventIdPow e limits)
          (firstSome (checkPubkeyPow e limits)
            (firstSome (checkPubkeyWhitelist e limits)
              (firstSome (checkPubkeyBlacklist e limits)
                (firstSome (checkKindWhitelist e limits)
                  (checkKindBlacklist e limits))))))))

/-- Stringification of one kinds entry as the javascript `toString` helper
produces it inside the rate-limit key. -/
def kindFilterToString : KindFilter → String
  | .exact k => toString k
  | .range lo hi => "[" ++ toString lo ++ "," ++ toString hi ++ "]"

/-- Stringification of a kinds list: a bracketed comma-join. -/
def kindsListToString (ks : List KindFilter) : String :=
  "[" ++ String.intercalate "," (ks.map kindFilterToString) ++ "]"

/-- The counter key for one rate-limit record. -/
def rateLimitKey (pubkey : String) (r : RateLimitRecord) : String :=
  match r.kinds with
  | some ks => pubkey ++ ":events:" ++ toString r.period ++ ":" ++ kindsListToString ks
  | none => pubkey ++ ":events:" ++ toString r.period

/-- A rate-limit record applies unless it narrows to kinds that do not
match the event. -/
def recordApplies (e : Event) (r : RateLimitRecord) : Bool :=
  match r.kinds with
  | some ks => ks.any (isEventKindOrRangeMatch e)
  | none => true

/-- The loop of `isRateLimited`: hit the counter of every applicable
record, remembering whether any hit reported the limit exceeded. -/
def rateLimitHits (e : Event) (hitResult : String → Nat → Nat → Nat → Bool) :
    List RateLimitRecord → Bool × List Effect
  | [] => (false, [])
  | r :: rest =>
    if recordApplies e r then
      let key := rateLimitKey e.pubkey r
      let limitedHere := hitResult key 1 r.period r.rate
      let p := rateLimitHits e hitResult rest
      (limitedHere || p.1, Effect.rateLimiterHit key 1 r.period r.rate :: p.2)
    else rateLimitHits e hitResult rest

/-- Whether the pubkey of the event is in the rate-limit bypass list. -/
def pubkeyWhitelisted (e : Event) (limits : EventLimits) : Bool :=
  match limits.whitelists.bind EventWhitelists.pubkeys with
  | some ps => ps.contains e.pubkey
  | none => false

/-- Whether the client address is in the rate-limit bypass list. -/
def ipWhitelisted (limits : EventLimits) (clientAddress : String) : Bool :=
  match limits.whitelists.bind EventWhitelists.ipAddresses with
  | some ips => ips.contains clientAddress
  | none => false

/-- `isRateLimited`: empty or missing rule list and the two bypass lists
short-circuit to not limited without consuming counters; otherwise every
applicable record is hit and the results are disjoined. Returns the
decision together with the hits performed. -/
def isRateLimited (e : Event) (s : Settings) (clientAddress : String)
    (hitResult : String → Nat → Nat → Nat → Bool) : Bool × List Effect :=
  let limits := (s.limits.bind Limits.event).getD {}
  match limits.rateLimits with
  | none => (false, [])
  | some [] => (false, [])
  | some (r :: rest) =>
    if pubkeyWhitelisted e limits then (false, [])
    else if ipWhitelisted limits clientAddress then (false, [])
    else rateLimitHits e hitResult (r :: rest)

/-- A fee schedule is applicable when enabled and no whitelist prefix
matches the pubkey of the submitter. -/
def isApplicableFee (pubkey : String) (f : FeeSchedule) : Bool :=
  f.enabled && !(((f.whitelists.bind FeeScheduleWhitelists.pubkeys).getD []).any
                  (fun p => pubkey.startsWith p))

/-- `isUserAdmitted`: paid-admission gating. The oracle `findUserResult`
is the value `findByPubkey` would return and `topUpResult` the value
`topUpPubkey` would return. The error side models the javascript
TypeError thrown when an index-0 fee schedule is read from an empty list;
it carries the effects performed before the throw. -/
def isUserAdmitted (s : Settings) (pubkey : String) (findUserResult : Option User)
    (topUpResult : Bool) : Except (List Effect) (Option String × List Effect) :=
  match s.payments with
  | none => .ok (none, [])
  | some p =>
    if !p.enabled then .ok (none, [])
    else
      let applicable := p.feeSchedules.admission.filter (isApplicableFee pubkey)
      if applicable.isEmpty then .ok (none, [])
      else
        match findUserResult with
        | none => .ok (some "blocked: pubkey not admitted", [.findUser pubkey])
        | some user =>
          if !user.isAdmitted then .ok (some "blocked: pubkey not admitted", [.findUser pubkey])
          else
            match p.feeSchedules.publication with
            | [] => .error [.findUser pubkey]
            | pub0 :: _ =>
              if pub0.enabled && decide (user.balance < pub0.amount) then
                match p.feeSchedules.topUp with
                | [] => .error [.findUser pubkey]
                | t0 :: _ =>
                  if t0.enabled then
                    if topUpResult then .ok (none, [.findUser pubkey, .topUp pubkey])
                    else .ok (some "blocked: insufficient balance",
                              [.findUser pubkey, .topUp pubkey])
                  else .ok (some "blocked: insufficient balance", [.findUser pubkey])
              else
                let minBalance :=
                  ((((s.limits.bind Limits.event).bind EventLimits.pubkey).bind
                      PubkeyLimits.minBalance).getD 0)
                if decide (0 < minBalance) && decide (user.balance < minBalance) then
                  .ok (some "blocked: insufficient balance", [.findUser pubkey])
                else .ok (none, [.findUser pubkey])

/-- Gate of the inline event-check webhook: flag set and base url plus
endpoint path truthy. -/
def eventCheckConfigured (s : Settings) : Bool :=
  match s.webhooks with
  | none => false
  | some w => w.eventChecks && (w.endpoints.baseURL != "") && truthyOptStr w.endpoints.eventCheck

/-- Gate of the post-acceptance event-callback webhook. -/
def callbackConfigured (s : Settings) : Bool :=
  match s.webhooks with
  | none => false
  | some w => w.eventCallbacks && (w.endpoints.baseURL != "")
              && truthyOptStr w.endpoints.eventCallback

/-- The publication-fee stage: when the first publication fee schedule is
enabled, decrement the balance of the submitter by its amount. The error
side models the TypeError on an empty publication list. -/
def publicationFeeStage (s : Settings) (pubkey : String) : Except (List Effect) (List Effect) :=
  match s.payments with
  | none => .ok []
  | some p =>
    match p.feeSchedules.publication with
    | [] => .error []
    | pub0 :: _ =>
      if pub0.enabled then .ok [.updateBalance pubkey pub0.amount "decrement"]
      else .ok []

/-- The tail of the pipeline after all checks passed: strategy resolution,
publication fee, strategy execution (a throw is caught and acknowledged,
and the pipeline continues), event-callback webhook. `pre` is the trace
accumulated by the earlier stages. -/
def handleAfterChecks (e : Event) (s : Settings) (env : Env) (pre : List Effect) :
    Except (List Effect) (List Effect) :=
  if !env.strategyExecutable then
    .ok (pre ++ [.emit (createCommandResult e.id false "error: event not supported")])
  else
    match publicationFeeStage s e.pubkey with
    | .error feff => .error (pre ++ feff)
    | .ok feeEffects =>
      let stratEffects :=
        if env.strategyThrows then
          [Effect.strategyExecute,
           Effect.emit (createCommandResult e.id false "error: unable to process event")]
        else [Effect.strategyExecute]
      let cbEffects := if callbackConfigured s then [Effect.webhookEventCallback] else []
      .ok (pre ++ feeEffects ++ stratEffects ++ cbEffects)

/-- `handleMessage`: the admission pipeline. Returns the ordered effect
trace of the run; the error side is a thrown error carrying the effects
performed before the throw. -/
def handleMessage (e : Event) (s : Settings) (env : Env) : Except (List Effect) (List Effect) :=
  match isEventValid env with
  | some reason => .ok [.emit (createCommandResult e.id false reason)]
  | none =>
  if isExpiredEvent env.now e then
    .ok [.emit (createCommandResult e.id false "event is expired")]
  else
    let e2 := (addExpirationMetadata e).1
    let rl := isRateLimited e2 s env.clientAddress env.hitResult
    if rl.1 then
      .ok (rl.2 ++ [.emit (createCommandResult e2.id false "rate-limited: slow down")])
    else
      match canAcceptEvent e2 s env.now with
      | some reason => .ok (rl.2 ++ [.emit (createCommandResult e2.id false reason)])
      | none =>
        match isUserAdmitted s e2.pubkey env.findUserResult env.topUpResult with
        | .error aeff => .error (rl.2 ++ aeff)
        | .ok (some reason, aeff) =>
          .ok (rl.2 ++ aeff ++ [.emit (createCommandResult e2.id false reason)])
        | .ok (none, aeff) =>
          if eventCheckConfigured s then
            match env.eventCheckResponse with
            | none => .error (rl.2 ++ aeff ++ [.webhookEventCheck])
            | some resp =>
              if !resp.success then
                .ok (rl.2 ++ aeff ++ [.webhookEventCheck,
                     .emit (createCommandResult e2.id false resp.reason)])
              else handleAfterChecks e2 s env (rl.2 ++ aeff ++ [.webhookEventCheck])
          else handleAfterChecks e2 s env (rl.2 ++ aeff)

/-- Side effects performed by the user repository, in order. -/
inductive RepoEffect where
  | cacheExists (key : String)
  | dbSelect (pubkey : String)
  | webhookFetch (pubkey : String)
  | upsertUser (u : User)
  | cacheSet (key value : String)
  | cacheExpire (key : String) (ttl : Nat)
  deriving DecidableEq

/-- The negative-lookup cache key of a pubkey. -/
def isBlockedKey (pubkey : String) : String := pubkey ++ ":is-blocked"

/-- `UserRepository.findByPubkey`: negative cache, then datastore, then
webhook lookup with upsert on an affirmative answer and a 60 second
negative-cache entry otherwise. `cacheBlocked` is the cache lookup
result, `dbUser` the datastore row and `webhookUser` the value
`fetchUserByWebhook` would return (none on a negative or missing
response or when the webhook is not configured). -/
def findByPubkey (pubkey : String) (now : Nat) (cacheBlocked : Bool)
    (dbUser : Option User) (webhookUser : Option User) : Option User × List RepoEffect :=
  if cacheBlocked then (none, [.cacheExists (isBlockedKey pubkey)])
  else
    match dbUser with
    | some u => (some u, [.cacheExists (isBlockedKey pubkey), .dbSelect pubkey])
    | none =>
      match webhookUser with
      | some wu =>
        (some wu,
         [.cacheExists (isBlockedKey pubkey), .dbSelect pubkey, .webhookFetch pubkey,
          .upsertUser { pubkey := wu.pubkey, isAdmitted := wu.isAdmitted,
                        balance := wu.balance, createdAt := now,
                        updatedAt := now, tosAcceptedAt := some now }])
      | none =>
        (none,
         [.cacheExists (isBlockedKey pubkey), .dbSelect pubkey, .webhookFetch pubkey,
          .cacheSet (isBlockedKey pubkey) "true",
          .cacheExpire (isBlockedKey pubkey) 60])

/-- One row of the users table. The column names of the source schema are
pubkey, is underscore admitted, balance, tos_accepted_at, updated_at,
created_at; the admitted column is spelled in camel case here. -/
structure DBUserRow where
  pubkey : String
  isAdmitted : Bool
  balance : Int
  tos_accepted_at : Option Nat
  updated_at : Nat
  created_at : Nat
  deriving DecidableEq

/-- The row that `upsert` builds from a user: timestamps are the call
date, the rest is taken from the user. -/
def userToRow (u : User) (date : Nat) : DBUserRow :=
  { pubkey := u.pubkey, isAdmitted := u.isAdmitted, balance := u.balance,
    tos_accepted_at := u.tosAcceptedAt, updated_at := date, created_at := date }

/-- Modelled from the spec: insert-on-conflict merge semantics of the
datastore (the driver is an external collaborator). On conflict every
column of the inserted row is merged except pubkey, balance and
created_at, which keep the stored values. -/
def mergeOnConflict (old new : DBUserRow) : DBUserRow :=
  { pubkey := old.pubkey, balance := old.balance, created_at := old.created_at,
    isAdmitted := new.isAdmitted, tos_accepted_at := new.tos_accepted_at,
    updated_at := new.updated_at }

/-- `UserRepository.upsert` over a table of rows: insert keyed by pubkey,
merge on conflict, returning the new table and the affected row count. -/
def upsert (table : List DBUserRow) (u : User) (date : Nat) : List DBUserRow × Nat :=
  let row := userToRow u date
  match table.find? (fun r => r.pubkey == u.pubkey) with
  | none => (table ++ [row], 1)
  | some _ =>
    (table.map (fun r => if r.pubkey == u.pubkey then mergeOnConflict r row else r), 1)

/-- `UserRepository.getBalanceByPubkey`: the stored balance, zero when the
user is absent. `dbBalance` is the balance column of the selected row. -/
def getBalanceByPubkey (dbBalance : Option Int) : Int := dbBalance.getD 0

/-- An HTTP response of the administrative user endpoint. -/
structure HttpResponse where
  status : Nat
  body : String
  balance : Option Int := none
  deriving DecidableEq

/-- `userRequestHandler`: the administrative user endpoint. `apiKey` is
the RELAY_API_KEY environment variable, `token` and `pubkeyParam` the
query parameters, `dbBalance` the balance column of the selected row of
the submitter, none when the user is unknown. -/
def userRequestHandler (apiKey token pubkeyParam : Option String)
    (dbBalance : Option Int) : HttpResponse :=
  if !truthyOptStr apiKey || !truthyOptStr token then
    { status := 403, body := "Unauthorized" }
  else if !truthyOptStr pubkeyParam then
    { status := 400, body := "Must send pubkey in query" }
  else
    let balance := getBalanceByPubkey dbBalance
    if balance == 0 then { status := 404, body := "Pubkey not found" }
    else { status := 200, body := "", balance := some balance }

/-!  Theorems. First, helper lemmas shared by claim theorems. -/

/-- The loop over a content sequence is the first violation over all
records. -/
theorem contentSeqCheckEqFindSome (e : Event) :
    ∀ cs : List ContentLimits, contentSeqCheck e cs = cs.findSome? (contentRecordCheck e) := by
  intro cs
  induction cs with
  | nil => rfl
  | cons c rest ih =>
    simp only [contentSeqCheck, List.findSome?_cons]
    cases contentRecordCheck e c with
    | some r => rfl
    | none => exact ih

theorem kindBlacklistStageEq (e : Event) (l : EventLimits) :
    caeKindBlacklistStage e l = checkKindBlacklist e l := rfl

theorem kindWhitelistStageEq (e : Event) (l : EventLimits) :
    caeKindWhitelistStage e l =
      firstSome (checkKindWhitelist e l) (caeKindBlacklistStage e l) := by
  cases h : l.kind.bind KindLimits.whitelist with
  | none => simp [caeKindWhitelistStage, checkKindWhitelist, firstSome, h]
  | some wl =>
    simp only [caeKindWhitelistStage, checkKindWhitelist, h]
    split <;> simp [firstSome]

theorem pubkeyBlacklistStageEq (e : Event) (l : EventLimits) :
    caePubkeyBlacklistStage e l =
      firstSome (checkPubkeyBlacklist e l) (caeKindWhitelistStage e l) := by
  cases h : l.pubkey.bind PubkeyLimits.blacklist with
  | none => simp [caePubkeyBlacklistStage, checkPubkeyBlacklist, firstSome, h]
  | some bl =>
    simp only [caePubkeyBlacklistStage, checkPubkeyBlacklist, h]
    split <;> simp [firstSome]

theorem pubkeyWhitelistStageEq (e : Event) (l : EventLimits) :
    caePubkeyWhitelistStage e l =
      firstSome (checkPubkeyWhitelist e l) (caePubkeyBlacklistStage e l) := by
  cases h : l.pubkey.bind PubkeyLimits.whitelist with
  | none => simp [caePubkeyWhitelistStage, checkPubkeyWhitelist, firstSome, h]
  | some wl =>
    simp only [caePubkeyWhitelistStage, checkPubkeyWhitelist, h]
    split <;> simp [firstSome]

theorem pubkeyPowStageEq (e : Event) (l : EventLimits) :
    caePubkeyPowStage e l =
      firstSome (checkPubkeyPow e l) (caePubkeyWhitelistStage e l) := by
  cases h : l.pubkey.bind PubkeyLimits.minLeadingZeroBits with
  | none => simp [caePubkeyPowStage, checkPubkeyPow, firstSome, h]
  | some t =>
    simp only [caePubkeyPowStage, checkPubkeyPow, h]
    by_cases h1 : (0 : Nat) < t
    · by_cases h2 : getPubkeyProofOfWork e.pubkey < t
      · simp [h1, h2, firstSome]
      · simp [h1, h2, firstSome]
    · simp [h1, firstSome]

theorem eventIdPowStageEq (e : Event) (l : EventLimits) :
    caeEventIdPowStage e l =
      firstSome (checkEventIdPow e l) (caePubkeyPowStage e l) := by
  cases h : l.eventId.bind EventIdLimits.minLeadingZeroBits with
  | none => simp [caeEventIdPowStage, checkEventIdPow, firstSome, h]
  | some t =>
    simp only [caeEventIdPowStage, checkEventIdPow, h]
    by_cases h1 : (0 : Nat) < t
    · by_cases h2 : getEventProofOfWork e.id < t
      · simp [h1, h2, firstSome]
      · simp [h1, h2, firstSome]
    · simp [h1, firstSome]

theorem pastStageEq (e : Event) (l : EventLimits) (now : Int) :
    caePastStage e l now =
      firstSome (checkPastSkew e l now) (caeEventIdPowStage e l) := by
  cases h : l.createdAt.bind CreatedAtLimits.maxNegativeDelta with
  | none => simp [caePastStage, checkPastSkew, firstSome, h]
  | some d =>
    simp only [caePastStage, checkPastSkew, h]
    split <;> simp [firstSome]

theorem futureStageEq (e : Event) (l : EventLimits) (now : Int) :
    caeFutureStage e l now =
      firstSome (checkFutureSkew e l now) (caePastStage e l now) := by
  cases h : l.createdAt.bind CreatedAtLimits.maxPositiveDelta with
  | none => simp [caeFutureStage, checkFutureSkew, firstSome, h]
  | some d =>
    simp only [caeFutureStage, checkFutureSkew, h]
    split <;> simp [firstSome]

theorem canAcceptEventHeadEq (e : Event) (s : Settings) (now : Int) :
    canAcceptEvent e s now =
      firstSome (checkContent e ((s.limits.bind Limits.event).getD {}))
        (caeFutureStage e ((s.limits.bind Limits.event).getD {}) now) := by
  simp only [canAcceptEvent, checkContent]
  cases h : ((s.limits.bind Limits.event).getD {}).content with
  | none => simp [firstSome, h]
  | some cset =>
    cases cset with
    | single c =>
      simp only [h]
      cases contentRecordCheck e c with
      | some r => rfl
      | none => rfl
    | seq cs =>
      simp only [h, contentSeqCheckEqFindSome]
      cases cs.findSome? (contentRecordCheck e) with
      | some r => rfl
      | none => rfl

/-- C2. The policy evaluator `canAcceptEvent` is a pure check over
(event, settings, now) that applies, in this order, content length,
future skew, past skew, event-id proof-of-work, pubkey proof-of-work,
pubkey allowlist, pubkey denylist, kind allowlist and kind denylist,
returning the exact reason string of the first violated check and none on
acceptance; when the content limit is a sequence, every record is
evaluated and the first violation wins. -/
theorem c2_policy_evaluator :
    ∀ (e : Event) (s : Settings) (now : Int),
      (canAcceptEvent e s now = evaluate e s now) ∧
      (∀ cs : List ContentLimits,
        contentSeqCheck e cs = cs.findSome? (contentRecordCheck e)) := by
  intro e s now
  constructor
  · rw [canAcceptEventHeadEq, futureStageEq, pastStageEq, eventIdPowStageEq,
        pubkeyPowStageEq, pubkeyWhitelistStageEq, pubkeyBlacklistStageEq,
        kindWhitelistStageEq, kindBlacklistStageEq]
    rfl
  · exact contentSeqCheckEqFindSome e

/-- The hit loop reduces to the applicable records: one hit each and a
disjunction of the results. -/
theorem rateLimitHitsSpec (e : Event) (f : String → Nat → Nat → Nat → Bool) :
    ∀ rl : List RateLimitRecord,
      rateLimitHits e f rl =
        (((rl.filter (recordApplies e)).map
            (fun r => f (rateLimitKey e.pubkey r) 1 r.period r.rate)).any (fun b => b),
         (rl.filter (recordApplies e)).map
            (fun r => Effect.rateLimiterHit (rateLimitKey e.pubkey r) 1 r.period r.rate)) := by
  intro rl
  induction rl with
  | nil => rfl
  | cons r rest ih =>
    by_cases h : recordApplies e r
    · simp [rateLimitHits, List.filter_cons, h, ih]
    · simp [rateLimitHits, List.filter_cons, h, ih]

/-- C3. For every event and configured rate-limit list, `isRateLimited`
hits every record applicable to the kind of the event, under the key
built from the pubkey, the period and, when present, the kinds list, and
returns true iff at least one applicable hit reported the limit; a pubkey
or client address found in the bypass whitelists short-circuits to not
limited without hitting any counter. -/
theorem c3_rate_limiter :
    ∀ (e : Event) (s : Settings) (addr : String) (f : String → Nat → Nat → Nat → Bool),
    (pubkeyWhitelisted e ((s.limits.bind Limits.event).getD {}) = true →
       isRateLimited e s addr f = (false, [])) ∧
    (ipWhitelisted ((s.limits.bind Limits.event).getD {}) addr = true →
       isRateLimited e s addr f = (false, [])) ∧
    (∀ rl : List RateLimitRecord,
       ((s.limits.bind Limits.event).getD {}).rateLimits = some rl →
       pubkeyWhitelisted e ((s.limits.bind Limits.event).getD {}) = false →
       ipWhitelisted ((s.limits.bind Limits.event).getD {}) addr = false →
       isRateLimited e s addr f =
         (((rl.filter (recordApplies e)).map
             (fun r => f (rateLimitKey e.pubkey r) 1 r.period r.rate)).any (fun b => b),
          (rl.filter (recordApplies e)).map
             (fun r => Effect.rateLimiterHit (rateLimitKey e.pubkey r) 1 r.period r.rate))) := by
  intro e s addr f
  refine ⟨?_, ?_, ?_⟩
  · intro h
    simp only [isRateLimited]
    cases hrl : ((s.limits.bind Limits.event).getD {}).rateLimits with
    | none => rfl
    | some rl =>
      cases rl with
      | nil => rfl
      | cons r rest => simp [h]
  · intro h
    simp only [isRateLimited]
    cases hrl : ((s.limits.bind Limits.event).getD {}).rateLimits with
    | none => rfl
    | some rl =>
      cases rl with
      | nil => rfl
      | cons r rest =>
        by_cases hp : pubkeyWhitelisted e ((s.limits.bind Limits.event).getD {})
        · simp [hp]
        · simp [hp, h]
  · intro rl hrl hp hi
    cases rl with
    | nil => simp [isRateLimited, hrl]
    | cons r rest => simp [isRateLimited, hrl, hp, hi, rateLimitHitsSpec]

/-- C4. `isUserAdmitted` accepts immediately whenever payments are
disabled or no admission fee schedule is both enabled and non-matching
for the submitter pubkey prefix; otherwise it loads the user and rejects
an absent or non-admitted user, and, when the first publication fee
schedule is enabled and the balance is below its amount, attempts a
top-up if the first top-up schedule is enabled, accepting on success and
rejecting with insufficient balance on failure. -/
theorem c4_user_admission :
    ∀ (s : Settings) (pk : String) (fu : Option User) (tu : Bool),
    (s.payments = none → isUserAdmitted s pk fu tu = .ok (none, [])) ∧
    (∀ p : Payments, s.payments = some p → p.enabled = false →
       isUserAdmitted s pk fu tu = .ok (none, [])) ∧
    (∀ p : Payments, s.payments = some p → p.enabled = true →
       (p.feeSchedules.admission.filter (isApplicableFee pk)).isEmpty = true →
       isUserAdmitted s pk fu tu = .ok (none, [])) ∧
    (∀ p : Payments, s.payments = some p → p.enabled = true →
       (p.feeSchedules.admission.filter (isApplicableFee pk)).isEmpty = false →
       fu = none →
       isUserAdmitted s pk fu tu =
         .ok (some "blocked: pubkey not admitted", [.findUser pk])) ∧
    (∀ (p : Payments) (u : User), s.payments = some p → p.enabled = true →
       (p.feeSchedules.admission.filter (isApplicableFee pk)).isEmpty = false →
       fu = some u → u.isAdmitted = false →
       isUserAdmitted s pk fu tu =
         .ok (some "blocked: pubkey not admitted", [.findUser pk])) ∧
    (∀ (p : Payments) (u : User) (pub0 t0 : FeeSchedule)
        (pubRest tRest : List FeeSchedule),
       s.payments = some p → p.enabled = true →
       (p.feeSchedules.admission.filter (isApplicableFee pk)).isEmpty = false →
       fu = some u → u.isAdmitted = true →
       p.feeSchedules.publication = pub0 :: pubRest → pub0.enabled = true →
       u.balance < pub0.amount →
       p.feeSchedules.topUp = t0 :: tRest → t0.enabled = true → tu = true →
       isUserAdmitted s pk fu tu = .ok (none, [.findUser pk, .topUp pk])) ∧
    (∀ (p : Payments) (u : User) (pub0 t0 : FeeSchedule)
        (pubRest tRest : List FeeSchedule),
       s.payments = some p → p.enabled = true →
       (p.feeSchedules.admission.filter (isApplicableFee pk)).isEmpty = false →
       fu = some u → u.isAdmitted = true →
       p.feeSchedules.publication = pub0 :: pubRest → pub0.enabled = true →
       u.balance < pub0.amount →
       p.feeSchedules.topUp = t0 :: tRest → t0.enabled = true → tu = false →
       isUserAdmitted s pk fu tu =
         .ok (some "blocked: insufficient balance", [.findUser pk, .topUp pk])) ∧
    (∀ (p : Payments) (u : User) (pub0 t0 : FeeSchedule)
        (pubRest tRest : List FeeSchedule),
       s.payments = some p → p.enabled = true →
       (p.feeSchedules.admission.filter (isApplicableFee pk)).isEmpty = false →
       fu = some u → u.isAdmitted = true →
       p.feeSchedules.publication = pub0 :: pubRest → pub0.enabled = true →
       u.balance < pub0.amount →
       p.feeSchedules.topUp = t0 :: tRest → t0.enabled = false →
       isUserAdmitted s pk fu tu =
         .ok (some "blocked: insufficient balance", [.findUser pk])) := by
  intro s pk fu tu
  refine ⟨?_, ?_, ?_, ?_, ?_, ?_, ?_, ?_⟩
  · intro h; simp [isUserAdmitted, h]
  · intro p hp hen; simp [isUserAdmitted, hp, hen]
  · intro p hp hen hadm; simp [isUserAdmitted, hp, hen, hadm]
  · intro p hp hen hadm hfu; simp [isUserAdmitted, hp, hen, hadm, hfu]
  · intro p u hp hen hadm hfu hu; simp [isUserAdmitted, hp, hen, hadm, hfu, hu]
  · intro p u pub0 t0 pubRest tRest hp hen hadm hfu hu hpub hp0 hbal ht hht htu
    simp [isUserAdmitted, hp, hen, hadm, hfu, hu, hpub, hp0, hbal, ht, hht, htu]
  · intro p u pub0 t0 pubRest tRest hp hen hadm hfu hu hpub hp0 hbal ht hht htu
    simp [isUserAdmitted, hp, hen, hadm, hfu, hu, hpub, hp0, hbal, ht, hht, htu]
  · intro p u pub0 t0 pubRest tRest hp hen hadm hfu hu hpub hp0 hbal ht hht
    simp [isUserAdmitted, hp, hen, hadm, hfu, hu, hpub, hp0, hbal, ht, hht]

/-- C10. In `isUserAdmitted`, when the first publication fee schedule is
enabled, the balance of the user is below its amount and the top-up
succeeds, the function accepts immediately: the balance is not re-checked
against the publication amount and the minBalance check is skipped, even
when the configured minBalance exceeds the balance of the user. -/
theorem c10_topup_accepts_immediately :
    ∀ (s : Settings) (p : Payments) (pub0 t0 : FeeSchedule)
      (pubRest tRest : List FeeSchedule) (u : User) (pk : String) (m : Int),
      s.payments = some p → p.enabled = true →
      (p.feeSchedules.admission.filter (isApplicableFee pk)).isEmpty = false →
      u.isAdmitted = true →
      p.feeSchedules.publication = pub0 :: pubRest → pub0.enabled = true →
      u.balance < pub0.amount →
      p.feeSchedules.topUp = t0 :: tRest → t0.enabled = true →
      (((s.limits.bind Limits.event).bind EventLimits.pubkey).bind
          PubkeyLimits.minBalance) = some m →
      u.balance < m →
      isUserAdmitted s pk (some u) true = .ok (none, [.findUser pk, .topUp pk]) := by
  intro s p pub0 t0 pubRest tRest u pk m hp hen hadm hu hpub hp0 hbal ht hht hm hbm
  simp [isUserAdmitted, hp, hen, hadm, hu, hpub, hp0, hbal, ht, hht]

/-- The effect trace of a non-throwing `isUserAdmitted` run contains no
command-result emission. -/
theorem isUserAdmittedOkNoEmit :
    ∀ (s : Settings) (pk : String) (fu : Option User) (tu : Bool)
      (o : Option String) (aeff : List Effect),
      isUserAdmitted s pk fu tu = .ok (o, aeff) →
      aeff.all (fun x => !x.isEmit) = true := by
  intro s pk fu tu o aeff h
  simp only [isUserAdmitted] at h
  repeat' split at h
  all_goals (try rw [Except.ok.injEq, Prod.mk.injEq] at h)
  all_goals (try (obtain ⟨h1, h2⟩ := h; subst h2))
  all_goals simp_all [Effect.isEmit]

/-- The effect trace of the hit loop contains no command-result
emission. -/
theorem rateLimitHitsNoEmit (e : Event) (f : String → Nat → Nat → Nat → Bool) :
    ∀ rl : List RateLimitRecord,
      ((rateLimitHits e f rl).2).all (fun x => !x.isEmit) = true := by
  intro rl
  induction rl with
  | nil => rfl
  | cons r rest ih =>
    by_cases h : recordApplies e r
    · simp_all [rateLimitHits, Effect.isEmit]
    · simp_all [rateLimitHits]

/-- The effect trace of `isRateLimited` contains no command-result
emission. -/
theorem isRateLimitedSndNoEmit :
    ∀ (e : Event) (s : Settings) (addr : String) (f : String → Nat → Nat → Nat → Bool),
      ((isRateLimited e s addr f).2).all (fun x => !x.isEmit) = true := by
  intro e s addr f
  simp only [isRateLimited]
  cases hrl : ((s.limits.bind Limits.event).getD {}).rateLimits with
  | none => rfl
  | some rl =>
    cases rl with
    | nil => rfl
    | cons r rest =>
      by_cases hp : pubkeyWhitelisted e ((s.limits.bind Limits.event).getD {})
      · simp [hp]
      · by_cases hi : ipWhitelisted ((s.limits.bind Limits.event).getD {}) addr
        · simp [hp, hi]
        · simp [hp, hi, rateLimitHitsNoEmit]

/-- C1 (amended). `handleMessage` runs its stages in the exact order
validity, expiration, expiration-metadata attach, rate limiting, policy,
admission, event-check webhook, strategy resolution, publication fee,
strategy execution, event-callback webhook; each failing stage up to and
including strategy resolution emits exactly one command result
[OK, event.id, false, reason] and returns with no later stage running or
having side effects; a strategy-execution failure emits exactly one such
command result but the event-callback webhook stage still runs
afterwards. The stages after the event-check webhook are covered both
when that webhook is absent and when it is configured and answers
success true. -/
theorem c1_pipeline_stages :
    ∀ (e : Event) (s : Settings) (env : Env),
    (∀ r, isEventValid env = some r →
       handleMessage e s env = .ok [.emit (createCommandResult e.id false r)]) ∧
    (isEventValid env = none → isExpiredEvent env.now e = true →
       handleMessage e s env =
         .ok [.emit (createCommandResult e.id false "event is expired")]) ∧
    (isEventValid env = none → isExpiredEvent env.now e = false →
       (isRateLimited e s env.clientAddress env.hitResult).1 = true →
       handleMessage e s env =
         .ok ((isRateLimited e s env.clientAddress env.hitResult).2 ++
           [.emit (createCommandResult e.id false "rate-limited: slow down")])) ∧
    (∀ r, isEventValid env = none → isExpiredEvent env.now e = false →
       (isRateLimited e s env.clientAddress env.hitResult).1 = false →
       canAcceptEvent e s env.now = some r →
       handleMessage e s env =
         .ok ((isRateLimited e s env.clientAddress env.hitResult).2 ++
           [.emit (createCommandResult e.id false r)])) ∧
    (∀ r aeff, isEventValid env = none → isExpiredEvent env.now e = false →
       (isRateLimited e s env.clientAddress env.hitResult).1 = false →
       canAcceptEvent e s env.now = none →
       isUserAdmitted s e.pubkey env.findUserResult env.topUpResult = .ok (some r, aeff) →
       handleMessage e s env =
         .ok ((isRateLimited e s env.clientAddress env.hitResult).2 ++ aeff ++
           [.emit (createCommandResult e.id false r)])) ∧
    (∀ r aeff, isEventValid env = none → isExpiredEvent env.now e = false →
       (isRateLimited e s env.clientAddress env.hitResult).1 = false →
       canAcceptEvent e s env.now = none →
       isUserAdmitted s e.pubkey env.findUserResult env.topUpResult = .ok (none, aeff) →
       eventCheckConfigured s = true →
       env.eventCheckResponse = some { success := false, reason := r } →
       handleMessage e s env =
         .ok ((isRateLimited e s env.clientAddress env.hitResult).2 ++ aeff ++
           [Effect.webhookEventCheck, .emit (createCommandResult e.id false r)])) ∧
    (∀ aeff, isEventValid env = none → isExpiredEvent env.now e = false →
       (isRateLimited e s env.clientAddress env.hitResult).1 = false →
       canAcceptEvent e s env.now = none →
       isUserAdmitted s e.pubkey env.findUserResult env.topUpResult = .ok (none, aeff) →
       eventCheckConfigured s = false →
       env.strategyExecutable = false →
       handleMessage e s env =
         .ok ((isRateLimited e s env.clientAddress env.hitResult).2 ++ aeff ++
           [.emit (createCommandResult e.id false "error: event not supported")])) ∧
    (∀ aeff feeEff, isEventValid env = none → isExpiredEvent env.now e = false →
       (isRateLimited e s env.clientAddress env.hitResult).1 = false →
       canAcceptEvent e s env.now = none →
       isUserAdmitted s e.pubkey env.findUserResult env.topUpResult = .ok (none, aeff) →
       eventCheckConfigured s = false →
       env.strategyExecutable = true →
       publicationFeeStage s e.pubkey = .ok feeEff →
       env.strategyThrows = true →
       handleMessage e s env =
         .ok ((isRateLimited e s env.clientAddress env.hitResult).2 ++ aeff ++ feeEff ++
           [Effect.strategyExecute,
            .emit (createCommandResult e.id false "error: unable to process event")] ++
           (if callbackConfigured s then [Effect.webhookEventCallback] else []))) ∧
    (∀ aeff feeEff, isEventValid env = none → isExpiredEvent env.now e = false →
       (isRateLimited e s env.clientAddress env.hitResult).1 = false →
       canAcceptEvent e s env.now = none →
       isUserAdmitted s e.pubkey env.findUserResult env.topUpResult = .ok (none, aeff) →
       eventCheckConfigured s = false →
       env.strategyExecutable = true →
       publicationFeeStage s e.pubkey = .ok feeEff →
       env.strategyThrows = false →
       handleMessage e s env =
         .ok ((isRateLimited e s env.clientAddress env.hitResult).2 ++ aeff ++ feeEff ++
           [Effect.strategyExecute] ++
           (if callbackConfigured s then [Effect.webhookEventCallback] else []))) ∧
    (∀ r aeff, isEventValid env = none → isExpiredEvent env.now e = false →
       (isRateLimited e s env.clientAddress env.hitResult).1 = false →
       canAcceptEvent e s env.now = none →
       isUserAdmitted s e.pubkey env.findUserResult env.topUpResult = .ok (none, aeff) →
       eventCheckConfigured s = true →
       env.eventCheckResponse = some { success := true, reason := r } →
       env.strategyExecutable = false →
       handleMessage e s env =
         .ok ((isRateLimited e s env.clientAddress env.hitResult).2 ++ aeff ++
           [Effect.webhookEventCheck,
            .emit (createCommandResult e.id false "error: event not supported")])) ∧
    (∀ r aeff feeEff, isEventValid env = none → isExpiredEvent env.now e = false →
       (isRateLimited e s env.clientAddress env.hitResult).1 = false →
       canAcceptEvent e s env.now = none →
       isUserAdmitted s e.pubkey env.findUserResult env.topUpResult = .ok (none, aeff) →
       eventCheckConfigured s = true →
       env.eventCheckResponse = some { success := true, reason := r } →
       env.strategyExecutable = true →
       publicationFeeStage s e.pubkey = .ok feeEff →
       env.strategyThrows = true →
       handleMessage e s env =
         .ok ((isRateLimited e s env.clientAddress env.hitResult).2 ++ aeff ++
           [Effect.webhookEventCheck] ++ feeEff ++
           [Effect.strategyExecute,
            .emit (createCommandResult e.id false "error: unable to process event")] ++
           (if callbackConfigured s then [Effect.webhookEventCallback] else []))) ∧
    (∀ r aeff feeEff, isEventValid env = none → isExpiredEvent env.now e = false →
       (isRateLimited e s env.clientAddress env.hitResult).1 = false →
       canAcceptEvent e s env.now = none →
       isUserAdmitted s e.pubkey env.findUserResult env.topUpResult = .ok (none, aeff) →
       eventCheckConfigured s = true →
       env.eventCheckResponse = some { success := true, reason := r } →
       env.strategyExecutable = true →
       publicationFeeStage s e.pubkey = .ok feeEff →
       env.strategyThrows = false →
       handleMessage e s env =
         .ok ((isRateLimited e s env.clientAddress env.hitResult).2 ++ aeff ++
           [Effect.webhookEventCheck] ++ feeEff ++
           [Effect.strategyExecute] ++
           (if callbackConfigured s then [Effect.webhookEventCallback] else []))) := by
  intro e s env
  refine ⟨?_, ?_, ?_, ?_, ?_, ?_, ?_, ?_, ?_, ?_, ?_, ?_⟩
  · intro r h
    simp [handleMessage, h]
  · intro h1 h2
    simp [handleMessage, h1, h2]
  · intro h1 h2 h3
    simp [handleMessage, addExpirationMetadata, h1, h2, h3]
  · intro r h1 h2 h3 h4
    simp [handleMessage, addExpirationMetadata, h1, h2, h3, h4]
  · intro r aeff h1 h2 h3 h4 h5
    simp [handleMessage, addExpirationMetadata, h1, h2, h3, h4, h5]
  · intro r aeff h1 h2 h3 h4 h5 h6 h7
    simp [handleMessage, addExpirationMetadata, h1, h2, h3, h4, h5, h6, h7]
  · intro aeff h1 h2 h3 h4 h5 h6 h7
    simp [handleMessage, handleAfterChecks, addExpirationMetadata,
          h1, h2, h3, h4, h5, h6, h7]
  · intro aeff feeEff h1 h2 h3 h4 h5 h6 h7 h8 h9
    simp [handleMessage, handleAfterChecks, addExpirationMetadata,
          h1, h2, h3, h4, h5, h6, h7, h8, h9]
  · intro aeff feeEff h1 h2 h3 h4 h5 h6 h7 h8 h9
    simp [handleMessage, handleAfterChecks, addExpirationMetadata,
          h1, h2, h3, h4, h5, h6, h7, h8, h9]
  · intro r aeff h1 h2 h3 h4 h5 h6 hresp h7
    simp [handleMessage, handleAfterChecks, addExpirationMetadata,
          h1, h2, h3, h4, h5, h6, hresp, h7]
  · intro r aeff feeEff h1 h2 h3 h4 h5 h6 hresp h7 h8 h9
    simp [handleMessage, handleAfterChecks, addExpirationMetadata,
          h1, h2, h3, h4, h5, h6, hresp, h7, h8, h9]
  · intro r aeff feeEff h1 h2 h3 h4 h5 h6 hresp h7 h8 h9
    simp [handleMessage, handleAfterChecks, addExpirationMetadata,
          h1, h2, h3, h4, h5, h6, hresp, h7, h8, h9]

/-- C1 counterexample. A concrete run in which every stage passes, the
strategy throws, and the event-callback webhook is configured: the
pipeline emits the failure command result and the event-callback webhook
still runs afterwards, so the failing strategy-execution stage is not the
last thing that happens and a later stage does have side effects. The
event is (id ab, pubkey cd, created_at 0, kind 1, no tags, empty
content); the settings enable only the event-callback webhook; the
oracles make every check pass and the strategy throw. -/
theorem c1_counterexample :
    handleMessage ⟨"ab", "cd", 0, 1, [], "", ""⟩
        ⟨none, none, some ⟨false, false, false, true, ⟨"https://h", none, none, some "/cb", none⟩⟩⟩
        ⟨100, true, true, "ip", fun _ _ _ _ => false, none, false, none, true, true⟩ =
      .ok [Effect.strategyExecute,
           .emit (createCommandResult "ab" false "error: unable to process event"),
           Effect.webhookEventCallback] ∧
    handleMessage ⟨"ab", "cd", 0, 1, [], "", ""⟩
        ⟨none, none, some ⟨false, false, false, true, ⟨"https://h", none, none, some "/cb", none⟩⟩⟩
        ⟨100, true, true, "ip", fun _ _ _ _ => false, none, false, none, true, true⟩ ≠
      .ok [Effect.strategyExecute,
           .emit (createCommandResult "ab" false "error: unable to process event")] := by
  constructor
  · rfl
  · intro hcontra
    have h1 : handleMessage ⟨"ab", "cd", 0, 1, [], "", ""⟩
        ⟨none, none, some ⟨false, false, false, true, ⟨"https://h", none, none, some "/cb", none⟩⟩⟩
        ⟨100, true, true, "ip", fun _ _ _ _ => false, none, false, none, true, true⟩ =
      .ok [Effect.strategyExecute,
           .emit (createCommandResult "ab" false "error: unable to process event"),
           Effect.webhookEventCallback] := rfl
    rw [h1] at hcontra
    simp at hcontra

/-- C5. When the first publication fee schedule is enabled, the pipeline
decrements the balance of the submitter by its amount before strategy
execution; if the strategy then throws, the client receives exactly one
OK,false,error-unable-to-process acknowledgement and the already-debited
publication fee is not refunded (the trace holds no compensating balance
update). The event-check webhook stage is covered in both of its passing
states: absent, or configured and answering success true, the trace
of that stage being `wEff`. -/
theorem c5_publication_fee_not_refunded :
    ∀ (e : Event) (s : Settings) (env : Env) (p : Payments) (pub0 : FeeSchedule)
      (pubRest : List FeeSchedule) (aeff wEff : List Effect),
      isEventValid env = none → isExpiredEvent env.now e = false →
      (isRateLimited e s env.clientAddress env.hitResult).1 = false →
      canAcceptEvent e s env.now = none →
      isUserAdmitted s e.pubkey env.findUserResult env.topUpResult = .ok (none, aeff) →
      ((eventCheckConfigured s = false ∧ wEff = []) ∨
       (eventCheckConfigured s = true ∧
        (∃ r, env.eventCheckResponse = some { success := true, reason := r }) ∧
        wEff = [Effect.webhookEventCheck])) →
      env.strategyExecutable = true →
      s.payments = some p → p.feeSchedules.publication = pub0 :: pubRest →
      pub0.enabled = true → env.strategyThrows = true →
      (handleMessage e s env =
        .ok ((isRateLimited e s env.clientAddress env.hitResult).2 ++ aeff ++ wEff ++
          [.updateBalance e.pubkey pub0.amount "decrement", Effect.strategyExecute,
           .emit (createCommandResult e.id false "error: unable to process event")] ++
          (if callbackConfigured s then [Effect.webhookEventCallback] else []))) ∧
      ((isRateLimited e s env.clientAddress env.hitResult).2 ++ aeff ++ wEff).all
          (fun x => !x.isEmit) = true := by
  intro e s env p pub0 pubRest aeff wEff h1 h2 h3 h4 h5 hw h7 hp hpub hen hthrow
  rcases hw with ⟨h6, rfl⟩ | ⟨h6, ⟨r, hresp⟩, rfl⟩
  · constructor
    · simp [handleMessage, handleAfterChecks, addExpirationMetadata, publicationFeeStage,
            h1, h2, h3, h4, h5, h6, h7, hp, hpub, hen, hthrow]
    · rw [List.all_append, List.all_append]
      rw [isRateLimitedSndNoEmit e s env.clientAddress env.hitResult]
      rw [isUserAdmittedOkNoEmit s e.pubkey env.findUserResult env.topUpResult none aeff h5]
      rfl
  · constructor
    · simp [handleMessage, handleAfterChecks, addExpirationMetadata, publicationFeeStage,
            h1, h2, h3, h4, h5, h6, hresp, h7, hp, hpub, hen, hthrow]
    · rw [List.all_append, List.all_append]
      rw [isRateLimitedSndNoEmit e s env.clientAddress env.hitResult]
      rw [isUserAdmittedOkNoEmit s e.pubkey env.findUserResult env.topUpResult none aeff h5]
      rfl

/-- C7. When the event-check webhook is configured and enabled, a
response with success false causes exactly one OK,false acknowledgement
with the server-provided reason and no further stage runs; a transport
failure of that webhook call is re-thrown as a local error and the
pipeline emits no acknowledgement at all for that submission (the thrown
trace holds no emission). -/
theorem c7_event_check_webhook :
    ∀ (e : Event) (s : Settings) (env : Env) (aeff : List Effect),
      isEventValid env = none → isExpiredEvent env.now e = false →
      (isRateLimited e s env.clientAddress env.hitResult).1 = false →
      canAcceptEvent e s env.now = none →
      isUserAdmitted s e.pubkey env.findUserResult env.topUpResult = .ok (none, aeff) →
      eventCheckConfigured s = true →
      (∀ r, env.eventCheckResponse = some { success := false, reason := r } →
        handleMessage e s env =
          .ok ((isRateLimited e s env.clientAddress env.hitResult).2 ++ aeff ++
            [Effect.webhookEventCheck, .emit (createCommandResult e.id false r)])) ∧
      (env.eventCheckResponse = none →
        handleMessage e s env =
          .error ((isRateLimited e s env.clientAddress env.hitResult).2 ++ aeff ++
            [Effect.webhookEventCheck])) ∧
      (((isRateLimited e s env.clientAddress env.hitResult).2 ++ aeff ++
          [Effect.webhookEventCheck]).all (fun x => !x.isEmit) = true) := by
  intro e s env aeff h1 h2 h3 h4 h5 h6
  refine ⟨?_, ?_, ?_⟩
  · intro r hresp
    simp [handleMessage, addExpirationMetadata, h1, h2, h3, h4, h5, h6, hresp]
  · intro hresp
    simp [handleMessage, addExpirationMetadata, h1, h2, h3, h4, h5, h6, hresp]
  · rw [List.all_append, List.all_append]
    rw [isRateLimitedSndNoEmit e s env.clientAddress env.hitResult]
    rw [isUserAdmittedOkNoEmit s e.pubkey env.findUserResult env.topUpResult none aeff h5]
    rfl

/-- C6. `findByPubkey` first consults the negative cache and, on a hit,
returns none without touching the datastore or the webhook; a datastore
hit returns the stored user; an affirmative webhook answer upserts the
row pubkey, isAdmitted, balance, createdAt=now, updatedAt=now,
tosAcceptedAt=now and returns the user; a negative or missing webhook
answer sets the is-blocked cache key to true with a 60 second TTL and
returns none. -/
theorem c6_find_by_pubkey :
    ∀ (pk : String) (now : Nat) (cacheBlocked : Bool)
      (dbUser webhookUser : Option User),
    (cacheBlocked = true →
       findByPubkey pk now cacheBlocked dbUser webhookUser =
         (none, [.cacheExists (isBlockedKey pk)])) ∧
    (∀ u, cacheBlocked = false → dbUser = some u →
       findByPubkey pk now cacheBlocked dbUser webhookUser =
         (some u, [.cacheExists (isBlockedKey pk), .dbSelect pk])) ∧
    (∀ wu, cacheBlocked = false → dbUser = none → webhookUser = some wu →
       findByPubkey pk now cacheBlocked dbUser webhookUser =
         (some wu,
          [.cacheExists (isBlockedKey pk), .dbSelect pk, .webhookFetch pk,
           .upsertUser { pubkey := wu.pubkey, isAdmitted := wu.isAdmitted,
                         balance := wu.balance, createdAt := now,
                         updatedAt := now, tosAcceptedAt := some now }])) ∧
    (cacheBlocked = false → dbUser = none → webhookUser = none →
       findByPubkey pk now cacheBlocked dbUser webhookUser =
         (none,
          [.cacheExists (isBlockedKey pk), .dbSelect pk, .webhookFetch pk,
           .cacheSet (isBlockedKey pk) "true",
           .cacheExpire (isBlockedKey pk) 60])) := by
  intro pk now cacheBlocked dbUser webhookUser
  refine ⟨?_, ?_, ?_, ?_⟩
  · intro h; simp [findByPubkey, h]
  · intro u hc hd; simp [findByPubkey, hc, hd]
  · intro wu hc hd hw; simp [findByPubkey, hc, hd, hw]
  · intro hc hd hw; simp [findByPubkey, hc, hd, hw]

/-- C8 counterexample. A known user whose stored balance is zero: the
endpoint answers 404 Pubkey not found, although the claim requires 200
with the balance for every known user. Inputs: api key set, token and
pubkey present, and the selected row carries balance 0. -/
theorem c8_counterexample :
    userRequestHandler (some "key") (some "tok") (some "ab") (some 0) =
      { status := 404, body := "Pubkey not found", balance := none } ∧
    (userRequestHandler (some "key") (some "tok") (some "ab") (some 0)).status ≠ 200 := by
  constructor
  · rfl
  · intro h
    simp [userRequestHandler, getBalanceByPubkey, truthyOptStr] at h

/-- C8 (amended). The administrative user endpoint returns 403 when the
server API key or the token query parameter is unset or empty, 400 when
pubkey is missing or empty, 404 when the user is unknown or the stored
balance is zero, and 200 with the balance otherwise, where
`getBalanceByPubkey` yields the stored big-integer balance and 0 for an
absent user. -/
theorem c8_user_endpoint :
    ∀ (apiKey token pkParam : Option String) (dbBalance : Option Int),
    (truthyOptStr apiKey = false ∨ truthyOptStr token = false →
       userRequestHandler apiKey token pkParam dbBalance =
         { status := 403, body := "Unauthorized", balance := none }) ∧
    (truthyOptStr apiKey = true → truthyOptStr token = true →
       truthyOptStr pkParam = false →
       userRequestHandler apiKey token pkParam dbBalance =
         { status := 400, body := "Must send pubkey in query", balance := none }) ∧
    (truthyOptStr apiKey = true → truthyOptStr token = true →
       truthyOptStr pkParam = true → getBalanceByPubkey dbBalance = 0 →
       userRequestHandler apiKey token pkParam dbBalance =
         { status := 404, body := "Pubkey not found", balance := none }) ∧
    (truthyOptStr apiKey = true → truthyOptStr token = true →
       truthyOptStr pkParam = true → getBalanceByPubkey dbBalance ≠ 0 →
       userRequestHandler apiKey token pkParam dbBalance =
         { status := 200, body := "", balance := some (getBalanceByPubkey dbBalance) }) ∧
    (getBalanceByPubkey none = 0) ∧
    (∀ b : Int, getBalanceByPubkey (some b) = b) := by
  intro apiKey token pkParam dbBalance
  refine ⟨?_, ?_, ?_, ?_, rfl, fun b => rfl⟩
  · intro h
    rcases h with h | h <;> simp [userRequestHandler, h]
  · intro h1 h2 h3; simp [userRequestHandler, h1, h2, h3]
  · intro h1 h2 h3 h4; simp [userRequestHandler, h1, h2, h3, h4]
  · intro h1 h2 h3 h4; simp [userRequestHandler, h1, h2, h3, h4]

/-- C9. `upsert` inserts a row keyed by pubkey and, when a row with that
pubkey already exists, updates every column except pubkey, balance and
created_at, which keep their previously stored values; the affected row
count is returned (one per upserted row). -/
theorem c9_upsert :
    ∀ (table : List DBUserRow) (u : User) (date : Nat),
    (table.find? (fun r => r.pubkey == u.pubkey) = none →
       upsert table u date = (table ++ [userToRow u date], 1)) ∧
    (∀ r0, table.find? (fun r => r.pubkey == u.pubkey) = some r0 →
       upsert table u date =
         (table.map (fun r => if r.pubkey == u.pubkey
                              then mergeOnConflict r (userToRow u date) else r), 1) ∧
       mergeOnConflict r0 (userToRow u date) =
         { pubkey := r0.pubkey, balance := r0.balance, created_at := r0.created_at,
           isAdmitted := u.isAdmitted, tos_accepted_at := u.tosAcceptedAt,
           updated_at := date }) := by
  intro table u date
  constructor
  · intro h; simp [upsert, h]
  · intro r0 h
    exact ⟨by simp [upsert, h], rfl⟩

/-- Witness for C1: a concrete run in which every check passes, the
event-check webhook is configured and answers success true, the strategy
throws and the callback webhook is configured, instantiating the
webhook-approving strategy-failure conjunct of the amended pipeline
theorem. -/
theorem c1_pipeline_stages_witness :
    eventCheckConfigured
        ⟨none, none, some ⟨false, false, true, true, ⟨"https://h", none, some "/ec", some "/cb", none⟩⟩⟩ = true ∧
    handleMessage ⟨"ab", "cd", 0, 1, [], "", ""⟩
        ⟨none, none, some ⟨false, false, true, true, ⟨"https://h", none, some "/ec", some "/cb", none⟩⟩⟩
        ⟨100, true, true, "ip", fun _ _ _ _ => false, none, false, some ⟨true, "ok"⟩, true, true⟩ =
      .ok [Effect.webhookEventCheck, Effect.strategyExecute,
           .emit (createCommandResult "ab" false "error: unable to process event"),
           Effect.webhookEventCallback] :=
  ⟨rfl,
   (c1_pipeline_stages ⟨"ab", "cd", 0, 1, [], "", ""⟩
      ⟨none, none, some ⟨false, false, true, true, ⟨"https://h", none, some "/ec", some "/cb", none⟩⟩⟩
      ⟨100, true, true, "ip", fun _ _ _ _ => false, none, false, some ⟨true, "ok"⟩, true, true⟩
     ).2.2.2.2.2.2.2.2.2.2.1 "ok" [] [] rfl rfl rfl rfl rfl rfl rfl rfl rfl rfl⟩

/-- Witness for C3: one applicable rule without kinds, a hit oracle that
reports the limit, no bypass lists. -/
theorem c3_rate_limiter_witness :
    pubkeyWhitelisted ⟨"ab", "cd", 0, 1, [], "", ""⟩
        ((((⟨none, some ⟨some ⟨none, none, none, none, none, some [⟨60000, 5, none⟩], none⟩⟩, none⟩ :
            Settings).limits.bind Limits.event).getD {})) = false ∧
    isRateLimited ⟨"ab", "cd", 0, 1, [], "", ""⟩
        ⟨none, some ⟨some ⟨none, none, none, none, none, some [⟨60000, 5, none⟩], none⟩⟩, none⟩
        "ip" (fun _ _ _ _ => true) =
      (true, [Effect.rateLimiterHit "cd:events:60000" 1 60000 5]) :=
  ⟨rfl,
   (c3_rate_limiter ⟨"ab", "cd", 0, 1, [], "", ""⟩
      ⟨none, some ⟨some ⟨none, none, none, none, none, some [⟨60000, 5, none⟩], none⟩⟩, none⟩
      "ip" (fun _ _ _ _ => true)).2.2 [⟨60000, 5, none⟩] rfl rfl rfl⟩

/-- Witness for C4: engaged paid admission, admitted user with a balance
below the enabled publication fee, enabled top-up that succeeds. -/
theorem c4_user_admission_witness :
    ((50 : Int) < 100) ∧
    isUserAdmitted
        ⟨some ⟨true, ⟨[⟨true, 100, none⟩], [⟨true, 100, none⟩], [⟨true, 500, none⟩]⟩⟩, none, none⟩
        "cd" (some ⟨"cd", true, 50, 0, 0, none⟩) true =
      .ok (none, [.findUser "cd", .topUp "cd"]) :=
  ⟨by decide,
   (c4_user_admission
      ⟨some ⟨true, ⟨[⟨true, 100, none⟩], [⟨true, 100, none⟩], [⟨true, 500, none⟩]⟩⟩, none, none⟩
      "cd" (some ⟨"cd", true, 50, 0, 0, none⟩) true).2.2.2.2.2.1
     ⟨true, ⟨[⟨true, 100, none⟩], [⟨true, 100, none⟩], [⟨true, 500, none⟩]⟩⟩
     ⟨"cd", true, 50, 0, 0, none⟩ ⟨true, 100, none⟩ ⟨true, 500, none⟩ [] []
     rfl rfl rfl rfl rfl rfl rfl (by decide) rfl rfl rfl⟩

/-- Witness for C5: publication fee enabled with amount 100, the
event-check webhook configured and answering success true, strategy
throws, no callback webhook: the webhook passes, the decrement precedes
the strategy, the error is acknowledged once, no refund appears. -/
theorem c5_publication_fee_witness :
    (⟨true, 100, none⟩ : FeeSchedule).enabled = true ∧
    handleMessage ⟨"ab", "cd", 0, 1, [], "", ""⟩
        ⟨some ⟨false, ⟨[], [⟨true, 100, none⟩], []⟩⟩, none,
         some ⟨false, false, true, false, ⟨"https://h", none, some "/ec", none, none⟩⟩⟩
        ⟨100, true, true, "ip", fun _ _ _ _ => false, none, false, some ⟨true, "ok"⟩, true, true⟩ =
      .ok [Effect.webhookEventCheck, .updateBalance "cd" 100 "decrement",
           Effect.strategyExecute,
           .emit (createCommandResult "ab" false "error: unable to process event")] :=
  ⟨rfl,
   (c5_publication_fee_not_refunded ⟨"ab", "cd", 0, 1, [], "", ""⟩
      ⟨some ⟨false, ⟨[], [⟨true, 100, none⟩], []⟩⟩, none,
       some ⟨false, false, true, false, ⟨"https://h", none, some "/ec", none, none⟩⟩⟩
      ⟨100, true, true, "ip", fun _ _ _ _ => false, none, false, some ⟨true, "ok"⟩, true, true⟩
      ⟨false, ⟨[], [⟨true, 100, none⟩], []⟩⟩ ⟨true, 100, none⟩ [] [] [Effect.webhookEventCheck]
      rfl rfl rfl rfl rfl (Or.inr ⟨rfl, ⟨"ok", rfl⟩, rfl⟩) rfl rfl rfl rfl rfl).1⟩

/-- Witness for C6: an affirmative webhook lookup upserts the freshly
timestamped row and returns the user. -/
theorem c6_find_by_pubkey_witness :
    isBlockedKey "cd" = "cd:is-blocked" ∧
    findByPubkey "cd" 42 false none (some ⟨"cd", true, 500, 7, 8, none⟩) =
      (some ⟨"cd", true, 500, 7, 8, none⟩,
       [.cacheExists "cd:is-blocked", .dbSelect "cd", .webhookFetch "cd",
        .upsertUser ⟨"cd", true, 500, 42, 42, some 42⟩]) :=
  ⟨rfl,
   (c6_find_by_pubkey "cd" 42 false none (some ⟨"cd", true, 500, 7, 8, none⟩)).2.2.1
     ⟨"cd", true, 500, 7, 8, none⟩ rfl rfl rfl⟩

/-- Witness for C7: configured event-check webhook answering success
false with a server-provided reason: one veto acknowledgement. -/
theorem c7_event_check_webhook_witness :
    eventCheckConfigured
        ⟨none, none, some ⟨false, false, true, false, ⟨"https://h", none, some "/ec", none, none⟩⟩⟩ = true ∧
    handleMessage ⟨"ab", "cd", 0, 1, [], "", ""⟩
        ⟨none, none, some ⟨false, false, true, false, ⟨"https://h", none, some "/ec", none, none⟩⟩⟩
        ⟨100, true, true, "ip", fun _ _ _ _ => false, none, false,
         some ⟨false, "nope"⟩, true, false⟩ =
      .ok [Effect.webhookEventCheck, .emit (createCommandResult "ab" false "nope")] :=
  ⟨rfl,
   (c7_event_check_webhook ⟨"ab", "cd", 0, 1, [], "", ""⟩
      ⟨none, none, some ⟨false, false, true, false, ⟨"https://h", none, some "/ec", none, none⟩⟩⟩
      ⟨100, true, true, "ip", fun _ _ _ _ => false, none, false,
       some ⟨false, "nope"⟩, true, false⟩ []
      rfl rfl rfl rfl rfl rfl).1 "nope" rfl⟩

/-- Witness for C8: authorized request for a known user with a non-zero
balance answers 200 with the balance. -/
theorem c8_user_endpoint_witness :
    getBalanceByPubkey (some 250) ≠ 0 ∧
    userRequestHandler (some "k") (some "t") (some "ab") (some 250) =
      { status := 200, body := "", balance := some 250 } :=
  ⟨by decide,
   (c8_user_endpoint (some "k") (some "t") (some "ab") (some 250)).2.2.2.1
     rfl rfl rfl (by decide)⟩

/-- Witness for C9: upserting over an existing row keeps pubkey, balance
and created_at and updates the other columns. -/
theorem c9_upsert_witness :
    ([⟨"cd", false, 900, none, 1, 2⟩] : List DBUserRow).find?
        (fun r => r.pubkey == (⟨"cd", true, 50, 10, 11, some 12⟩ : User).pubkey) =
      some ⟨"cd", false, 900, none, 1, 2⟩ ∧
    upsert [⟨"cd", false, 900, none, 1, 2⟩] ⟨"cd", true, 50, 10, 11, some 12⟩ 99 =
      ([⟨"cd", true, 900, some 12, 99, 2⟩], 1) :=
  ⟨rfl,
   ((c9_upsert [⟨"cd", false, 900, none, 1, 2⟩] ⟨"cd", true, 50, 10, 11, some 12⟩ 99).2
      ⟨"cd", false, 900, none, 1, 2⟩ rfl).1⟩

/-- Witness for C10: a configured minBalance of one million far above the
balance of the user is skipped after a successful top-up. -/
theorem c10_topup_witness :
    ((50 : Int) < 1000000) ∧
    isUserAdmitted
        ⟨some ⟨true, ⟨[⟨true, 100, none⟩], [⟨true, 100, none⟩], [⟨true, 500, none⟩]⟩⟩,
         some ⟨some ⟨none, some ⟨some 1000000, none, none, none⟩, none, none, none, none, none⟩⟩,
         none⟩
        "cd" (some ⟨"cd", true, 50, 0, 0, none⟩) true =
      .ok (none, [.findUser "cd", .topUp "cd"]) :=
  ⟨by decide,
   c10_topup_accepts_immediately
     ⟨some ⟨true, ⟨[⟨true, 100, none⟩], [⟨true, 100, none⟩], [⟨true, 500, none⟩]⟩⟩,
      some ⟨some ⟨none, some ⟨some 1000000, none, none, none⟩, none, none, none, none, none⟩⟩,
      none⟩
     ⟨true, ⟨[⟨true, 100, none⟩], [⟨true, 100, none⟩], [⟨true, 500, none⟩]⟩⟩
     ⟨true, 100, none⟩ ⟨true, 500, none⟩ [] [] ⟨"cd", true, 50, 0, 0, none⟩ "cd" 1000000
     rfl rfl rfl rfl rfl rfl (by decide) rfl rfl rfl (by decide)⟩
